import Mathlib

/-!
Verification of the asciidesmos type-checking kernel.

Shallow embedding of the weak type system of `src/compiler/src/types.rs`
and the span substrate of `src/types/src/lib.rs`.  Rust panics
(`unimplemented!`, `expect`) are modelled by the `PanicOr` wrapper; Rust
`Result`/`Option` map to `Except`/`Option`.
-/

namespace Asciidesmos

/-- `ValType` from `src/types/src/lib.rs`: the two surface-level types. -/
inductive ValType where
  | Number
  | List
deriving DecidableEq, Repr

/-- `Span` from `src/types/src/lib.rs`: `file_id` plus a byte range.
`range_start`/`range_end` model the Rust `range.start`/`range.end`. -/
structure Span where
  file_id : Nat
  range_start : Nat
  range_end : Nat
deriving DecidableEq, Repr

/-- `Span::new` from `src/types/src/lib.rs`. -/
def Span.new (file_id : Nat) (range_start range_end : Nat) : Span :=
  ⟨file_id, range_start, range_end⟩

/-- `Span::dummy` from `src/types/src/lib.rs`. -/
def Span.dummy : Span := Span.new 0 0 0

/-- `Span::with_end_of` from `src/types/src/lib.rs`: merge two spans of the
same file into one running from the start of `self` to the end of `other`;
`none` when the file ids differ. -/
def Span.with_end_of (s other : Span) : Option Span :=
  if s.file_id = other.file_id then
    some (Span.new s.file_id s.range_start other.range_end)
  else
    none

/-- `Typ` from `src/compiler/src/types.rs`: `ValType` extended with the
compiler-internal list-mapping kind. -/
inductive Typ where
  | Num
  | List
  | MappedList
deriving DecidableEq, Fintype, Repr

/-- `impl From<ValType> for Typ` from `src/compiler/src/types.rs`. -/
def Typ.from_val (v : ValType) : Typ :=
  match v with
  | ValType.Number => Typ.Num
  | ValType.List => Typ.List

/-- `impl TryFrom<Typ> for ValType` from `src/compiler/src/types.rs`:
`Err(())` exactly on `MappedList`. -/
def ValType.try_from (value : Typ) : Except Unit ValType :=
  match value with
  | Typ.Num => Except.ok ValType.Number
  | Typ.List => Except.ok ValType.List
  | Typ.MappedList => Except.error ()

/-- `Typ::is_num_weak` from `src/compiler/src/types.rs`. -/
def Typ.is_num_weak (t : Typ) : Bool :=
  match t with
  | Typ.Num => true
  | Typ.List => false
  | Typ.MappedList => true

/-- `Typ::is_list_weak` from `src/compiler/src/types.rs`. -/
def Typ.is_list_weak (t : Typ) : Bool :=
  match t with
  | Typ.Num => false
  | Typ.List => true
  | Typ.MappedList => true

/-- `Typ::is_num_strict` from `src/compiler/src/types.rs`. -/
def Typ.is_num_strict (t : Typ) : Bool :=
  t = Typ.Num

/-- `Typ::eq_weak` from `src/compiler/src/types.rs`. -/
def Typ.eq_weak (t rhs : Typ) : Bool :=
  match t with
  | Typ.Num => rhs.is_num_weak
  | Typ.List => rhs = Typ.List
  | Typ.MappedList => rhs.is_num_weak

/-- `Function` from `src/ast/src/lib.rs`. -/
inductive Function where
  | Normal (name : String)
  | Log (base : String)
deriving DecidableEq, Repr

/-- `Literal` from `src/compiler/src/types.rs`. -/
inductive Literal where
  | Numeric
  | List
  | Range
deriving DecidableEq, Repr

/-- `TypInfo` from `src/compiler/src/types.rs`: provenance attached to every
inferred `Typ`. -/
inductive TypInfo where
  | Literal (lit : Literal) (span : Span)
  | BinOp (left : Span) (right : Span)
  | Map (span : Span)
  | Builtin (span : Span) (func : Function)
  | RawLatex (span : Span)
  | InlineFuncArg (span : Span)
  | Call (call_span : Span) (ret : TypInfo)
  | MappedCall (call_span : Span) (func : Function) (mapped_arg : TypInfo)
deriving DecidableEq, Repr

/-- Outcome of a Rust computation that may panic (via `expect`,
`unimplemented!`, ...) instead of returning. -/
inductive PanicOr (α : Type) where
  | panicked
  | ok (val : α)
deriving DecidableEq, Repr

/-- `binop_exprs` from `src/compiler/src/types.rs`.  The Rust
`.expect("Parsing same file")` on `Span::with_end_of` is the only panic
site; the two `debug_assert_eq!` cannot fire because a non-list-weak `Typ`
is `Num`. -/
def binop_exprs (left right : Span × Typ × TypInfo) :
    PanicOr (Span × Typ × TypInfo) :=
  let (ls, lt, li) := left
  let (rs, rt, ri) := right
  if lt.is_list_weak then PanicOr.ok (ls, Typ.List, li)
  else if rt.is_list_weak then PanicOr.ok (rs, Typ.List, ri)
  else
    match ls.with_end_of rs with
    | some s => PanicOr.ok (s, lt, TypInfo.BinOp ls rs)
    | none => PanicOr.panicked

/-- `combine_types` from `src/compiler/src/types.rs`. -/
def combine_types (left right : Typ) : Typ :=
  if left.is_list_weak || right.is_list_weak then Typ.List
  else Typ.Num

/-- The accumulating loop of `Iterator::reduce` specialised to
`binop_exprs`, propagating its panic. -/
def reduce_go (acc : Span × Typ × TypInfo) :
    List (Span × Typ × TypInfo) → PanicOr (Span × Typ × TypInfo)
  | [] => PanicOr.ok acc
  | r :: rest =>
    match binop_exprs acc r with
    | PanicOr.panicked => PanicOr.panicked
    | PanicOr.ok acc2 => reduce_go acc2 rest

/-- `reduce_with_binop_exprs` from `src/compiler/src/types.rs`:
`Iterator::reduce` with `binop_exprs`; `none` on the empty sequence. -/
def reduce_with_binop_exprs (types : List (Span × Typ × TypInfo)) :
    PanicOr (Option (Span × Typ × TypInfo)) :=
  match types with
  | [] => PanicOr.ok none
  | x :: xs =>
    match reduce_go x xs with
    | PanicOr.panicked => PanicOr.panicked
    | PanicOr.ok v => PanicOr.ok (some v)

/-- `CompareOperator` from `src/types/src/lib.rs`. -/
inductive CompareOperator where
  | Equal
  | GreaterThan
  | LessThan
  | GreaterThanEqual
  | LessThanEqual
deriving DecidableEq, Repr

/-- `BinaryOperator` from `src/ast/src/lib.rs`. -/
inductive BinaryOperator where
  | Add
  | Subtract
  | Multiply
  | Divide
  | Mod
  | Exponent
deriving DecidableEq, Repr

/-- `UnaryOperator` from `src/ast/src/lib.rs`. -/
inductive UnaryOperator where
  | Negate
  | Factorial
deriving DecidableEq, Repr

mutual

/-- `Expression` from `src/ast/src/lib.rs`; `Spanned<T>` is the pair
`Span × T`, so `LocatedExpression` is `Span × Expression`. -/
inductive Expression where
  | Error
  | Num (text : String)
  | Variable (name : String)
  | RawLatex (vt : ValType) (text : String)
  | FullyQualifiedVariable (path : List String) (item : String)
  | BinaryExpr (left : Span × Expression) (operator : BinaryOperator)
      (right : Span × Expression)
  | UnaryExpr (val : Span × Expression) (operator : UnaryOperator)
  | Map (inner : Span × Expression)
  | Call (func : Function) (args : List (Span × Expression))
  | List (items : List (Span × Expression))
  | Range (first : Span × Expression) (second : Option (Span × Expression))
      (ends : Span × Expression)
  | Piecewise (first : Span × Branch) (rest : List (Span × Branch))
      (default : Span × Expression)
  | Index (val : Span × Expression) (ind : Span × Expression)

/-- `Branch` from `src/ast/src/lib.rs`. -/
inductive Branch where
  | mk (cond_left : Span × Expression) (cond : CompareOperator)
      (cond_right : Span × Expression) (val : Span × Expression)

end

/-- `FunctionDefinition` from `src/ast/src/lib.rs`. -/
structure FunctionDefinition where
  name : String
  args : List (Span × String × ValType)
  ret_annotation : Option ValType
  inline : Bool

/-- `ImportMode` from `src/ast/src/lib.rs`. -/
inductive ImportMode where
  | Import (name : String)
  | Include

/-- `Import` from `src/ast/src/lib.rs`. -/
structure ImportStmt where
  path : String
  mode : ImportMode

/-- `Statement` from `src/ast/src/lib.rs`. -/
inductive Statement where
  | VarDef (name : String) (val : Span × Expression) (inline : Bool)
  | FuncDef (fd : FunctionDefinition) (body : Span × Expression)
  | Expression (e : Expression)
  | Import (i : ImportStmt)

/-- `LStatements` from `src/ast/src/lib.rs`: a list of located statements. -/
def LStatements := List (Span × Statement)

/-- The `latex` crate's output tree is consumed as an opaque external format
(spec §1, §6); a single placeholder constructor suffices because nothing in
the type kernel inspects latex values. -/
inductive Latex where
  | node

/-- `FunctionArgs` from `src/compiler/src/types.rs`. -/
inductive FunctionArgs where
  | Static (args : List ValType)
  | Variadic

/-- `FunctionSignature` from `src/compiler/src/types.rs`. -/
structure FunctionSignature where
  args : FunctionArgs
  ret : ValType × TypInfo

/-- `InlineFunction` from `src/compiler/src/types.rs`. -/
structure InlineFunction where
  args : List (String × ValType)
  ret : Typ × TypInfo
  body : Latex

/-- The `Loader` trait from `src/compiler/src/types.rs`: two operations, each
of which may panic (modelled by `PanicOr`) or return an optional parsed
statement list. -/
structure Loader where
  load : String → PanicOr (Option LStatements)
  parse_source : String → PanicOr (Option LStatements)

/-- `UnimplementedLoader` from `src/compiler/src/types.rs`: both operations
are `unimplemented!()`, i.e. they panic on every input. -/
def UnimplementedLoader : Loader where
  load := fun _ => PanicOr.panicked
  parse_source := fun _ => PanicOr.panicked

/-- `StdlibLoader` from the compiler crate's `stdlib.rs` (absent from src/);
its contents are irrelevant to the claims, only its `Default`-constructed
presence in `Context` matters. -/
structure StdlibLoader where
  unit : Unit

/-- `Context` from `src/compiler/src/types.rs`.  `HashMap` fields are
modelled as association lists; the `modules` field makes the type
recursive, so it is an inductive with one constructor.  The Rust field
`variables` is named `vars` here because `variables` is reserved. -/
inductive Context where
  | mk
    (vars : List (String × ValType × TypInfo))
    (locals : List (String × ValType × TypInfo))
    (defined_functions : List (String × FunctionSignature))
    (inline_vals : List (String × Latex × Typ × TypInfo))
    (inline_fns : List (String × InlineFunction))
    (modules : List (String × Context))
    (stdlib : StdlibLoader)
    (loader : Loader)

/-- Projection of the `loader` field of `Context`. -/
def Context.loader : Context → Loader
  | Context.mk _ _ _ _ _ _ _ l => l

/-- `impl Default for Context` (derived in `src/compiler/src/types.rs`):
every map empty, and via `impl Default for Box<dyn Loader>` the loader is
`UnimplementedLoader`. -/
def Context.mk_default : Context :=
  Context.mk [] [] [] [] [] [] ⟨()⟩ UnimplementedLoader

/-- `Context::new` from `src/compiler/src/types.rs`: `Default::default()`. -/
def Context.new : Context := Context.mk_default

/-- `Context::new_with_loader` from `src/compiler/src/types.rs`. -/
def Context.new_with_loader (loader : Loader) : Context :=
  Context.mk [] [] [] [] [] [] ⟨()⟩ loader

/-- The compile-error kinds needed by the claims, from spec §7 (the
compiler crate's `error.rs` is absent from src/). -/
inductive CompileError where
  | TypeMismatch (span : Span) (got : Typ) (expected : ValType)
  | WrongArgCount (span : Span) (got : Nat) (expected : Nat)
  | UnresolvedImport (span : Span) (path : String)
deriving DecidableEq, Repr

/-- Modelled from the spec: the per-slot argument check of the absent
`call.rs`.  Spec §4.3: an argument's weak type must satisfy the declared
slot via `eq_weak`, else `TypeMismatch`; spec §4.4: a list-weak argument in
a slot declared `Number` is instead accepted as a broadcast, remembering
the argument's provenance as the mapped argument.  Returns `some prov`
when the slot broadcasts, `none` when it matches plainly. -/
def check_call_arg (expected : ValType) (arg : Span × Typ × TypInfo) :
    Except CompileError (Option TypInfo) :=
  let (s, t, i) := arg
  if expected = ValType.Number ∧ t.is_list_weak then
    Except.ok (some i)
  else if t.eq_weak (Typ.from_val expected) then
    Except.ok none
  else
    Except.error (CompileError.TypeMismatch s t expected)

/-- Modelled from the spec: call lowering for a `Normal` function with
`Static` declared argument types, from the absent `call.rs`.  Spec §4.3:
arity must match (`WrongArgCount`); spec §4.4: if any argument slot
broadcast, the call's result type is `MappedList` with provenance
`MappedCall {call_span, func, mapped_arg}` where `mapped_arg` is the
provenance of the list-producing argument; otherwise the result is the
declared return type with `Call {call_span, ret}` provenance. -/
def lower_call (call_span : Span) (func : Function)
    (sig_args : List ValType) (ret : ValType × TypInfo)
    (args : List (Span × Typ × TypInfo)) :
    Except CompileError (Typ × TypInfo) :=
  if args.length ≠ sig_args.length then
    Except.error
      (CompileError.WrongArgCount call_span args.length sig_args.length)
  else do
    let checked ← (sig_args.zip args).mapM
      (fun p => check_call_arg p.1 p.2)
    match (checked.filterMap id).head? with
    | some mapped_arg =>
      Except.ok (Typ.MappedList, TypInfo.MappedCall call_span func mapped_arg)
    | none =>
      Except.ok (Typ.from_val ret.1, TypInfo.Call call_span ret.2)

/-- Modelled from the spec: `Import` statement compilation from the absent
`import.rs`.  Spec §4.5: loading delegates to the injected Loader
(`load(path)`); a `None` result signals an unresolvable import
(`UnresolvedImport`, spec §7).  What a successful load compiles into is
irrelevant to the claims and is abstracted to `()`. -/
def compile_import (ctx : Context) (span : Span) (im : ImportStmt) :
    PanicOr (Except CompileError Unit) :=
  match (Context.loader ctx).load im.path with
  | PanicOr.panicked => PanicOr.panicked
  | PanicOr.ok none =>
    PanicOr.ok (Except.error (CompileError.UnresolvedImport span im.path))
  | PanicOr.ok (some _stmts) => PanicOr.ok (Except.ok ())

/-- A concrete function name used by concrete instances. -/
def demo_name : String := "f"

/-- A concrete `Function` value used by concrete instances. -/
def demo_func : Function := Function.Normal demo_name

/-! ## Theorems for the claims -/

/-- C1: `combine_types (a, b)` returns `Typ.List` if and only if
`a.is_list_weak` or `b.is_list_weak` holds, and it returns `Typ.Num` exactly
in the remaining case, where both `a` and `b` are `Num`. -/
theorem combine_types_list_iff :
    ∀ a b : Typ,
      (combine_types a b = Typ.List ↔
        (a.is_list_weak = true ∨ b.is_list_weak = true)) ∧
      (combine_types a b = Typ.Num ↔ (a = Typ.Num ∧ b = Typ.Num)) := by
  decide

/-- C3: the truth table of `eq_weak`: `Num` accepts exactly the weak-nums,
`List` accepts only strict `List`, `MappedList` accepts exactly the
weak-nums; in particular `MappedList.eq_weak List = false` and
`MappedList.eq_weak Num = true`. -/
theorem eq_weak_table :
    (∀ r : Typ,
      Typ.eq_weak Typ.Num r = r.is_num_weak ∧
      (Typ.eq_weak Typ.List r = true ↔ r = Typ.List) ∧
      Typ.eq_weak Typ.MappedList r = r.is_num_weak) ∧
    Typ.eq_weak Typ.MappedList Typ.List = false ∧
    Typ.eq_weak Typ.MappedList Typ.Num = true := by
  decide

/-- C4: `TryFrom<Typ> for ValType` fails exactly on `MappedList`; `Num`
converts to `Number` and `List` converts to `List`. -/
theorem try_from_fails_iff_mapped :
    (∀ t : Typ, ValType.try_from t = Except.error () ↔ t = Typ.MappedList) ∧
    ValType.try_from Typ.Num = Except.ok ValType.Number ∧
    ValType.try_from Typ.List = Except.ok ValType.List := by
  refine ⟨fun t => ?_, rfl, rfl⟩
  cases t <;> simp [ValType.try_from]

/-- C7: the truth tables of the weak-kind predicates: `is_num_weak` holds
exactly on `Num` and `MappedList`, `is_list_weak` exactly on `List` and
`MappedList`, and `is_num_strict` only on `Num`. -/
theorem weak_predicate_tables :
    (∀ t : Typ, Typ.is_num_weak t = true ↔ (t = Typ.Num ∨ t = Typ.MappedList)) ∧
    (∀ t : Typ, Typ.is_list_weak t = true ↔ (t = Typ.List ∨ t = Typ.MappedList)) ∧
    (∀ t : Typ, Typ.is_num_strict t = true ↔ t = Typ.Num) := by
  decide

/-- C9: `eq_weak` is symmetric, reflexive and transitive — an equivalence
relation whose two classes are \x7bNum, MappedList\x7d and \x7bList\x7d — so
despite the asymmetric phrasing of the spec, no ordered pair of `Typ` values
distinguishes argument order; in particular
`MappedList.eq_weak MappedList = true`. -/
theorem eq_weak_equivalence :
    (∀ a b : Typ, Typ.eq_weak a b = Typ.eq_weak b a) ∧
    (∀ a : Typ, Typ.eq_weak a a = true) ∧
    (∀ a b c : Typ, Typ.eq_weak a b = true → Typ.eq_weak b c = true →
      Typ.eq_weak a c = true) ∧
    (∀ a b : Typ, Typ.eq_weak a b = true ↔
      ((a = Typ.Num ∨ a = Typ.MappedList) ∧ (b = Typ.Num ∨ b = Typ.MappedList)) ∨
      (a = Typ.List ∧ b = Typ.List)) ∧
    Typ.eq_weak Typ.MappedList Typ.MappedList = true := by
  decide

/-- Witness for the transitivity hypotheses of `eq_weak_equivalence` at
`Num`, `MappedList`, `Num`. -/
theorem eq_weak_equivalence_witness :
    Typ.eq_weak Typ.Num Typ.MappedList = true ∧
    Typ.eq_weak Typ.MappedList Typ.Num = true ∧
    Typ.eq_weak Typ.Num Typ.Num = true :=
  ⟨by decide, by decide,
    eq_weak_equivalence.2.2.1 Typ.Num Typ.MappedList Typ.Num
      (by decide) (by decide)⟩

/-- C2: a call whose declared slot expects `Number` and whose compiled
argument is list-weak is lowered to a broadcast call: no `TypeMismatch`, the
result type is `MappedList` and the provenance is `MappedCall` carrying the
argument's provenance as `mapped_arg`. -/
theorem mapped_call_no_mismatch (call_span s : Span) (func : Function)
    (t : Typ) (i : TypInfo) (ret : ValType × TypInfo)
    (h : t.is_list_weak = true) :
    lower_call call_span func [ValType.Number] ret [(s, t, i)] =
      Except.ok (Typ.MappedList, TypInfo.MappedCall call_span func i) := by
  cases t with
  | Num => exact absurd h (by decide)
  | List => rfl
  | MappedList => rfl

/-- Witness for `mapped_call_no_mismatch` at a concrete `List`-typed
argument. -/
theorem mapped_call_no_mismatch_witness :
    Typ.is_list_weak Typ.List = true ∧
    lower_call Span.dummy demo_func [ValType.Number]
        (ValType.Number, TypInfo.RawLatex Span.dummy)
        [(Span.dummy, Typ.List, TypInfo.Literal Literal.List Span.dummy)] =
      Except.ok (Typ.MappedList,
        TypInfo.MappedCall Span.dummy demo_func
          (TypInfo.Literal Literal.List Span.dummy)) :=
  ⟨by decide,
    mapped_call_no_mismatch Span.dummy Span.dummy demo_func Typ.List
      (TypInfo.Literal Literal.List Span.dummy)
      (ValType.Number, TypInfo.RawLatex Span.dummy) (by decide)⟩

/-- C10: `Context::new` (= `Context::default`) installs
`UnimplementedLoader`, whose `load` and `parse_source` panic on every input
instead of returning `None`; hence compiling any `Import` statement against
such a context panics rather than surfacing `UnresolvedImport`. -/
theorem default_context_loader_panics :
    Context.loader Context.new = UnimplementedLoader ∧
    Context.loader Context.mk_default = UnimplementedLoader ∧
    (∀ path, Loader.load UnimplementedLoader path = PanicOr.panicked) ∧
    (∀ source, Loader.parse_source UnimplementedLoader source = PanicOr.panicked) ∧
    (∀ path, Loader.load UnimplementedLoader path ≠
      PanicOr.ok (none : Option LStatements)) ∧
    (∀ span im, compile_import Context.new span im = PanicOr.panicked) := by
  refine ⟨rfl, rfl, fun _ => rfl, fun _ => rfl, fun p h => ?_, fun _ _ => rfl⟩
  simp [UnimplementedLoader] at h

/-- The `Typ` component of a `binop_exprs` outcome; `none` when it
panicked. -/
def result_typ : PanicOr (Span × Typ × TypInfo) → Option Typ
  | PanicOr.panicked => none
  | PanicOr.ok (_, t, _) => some t

/-- C8: when the operand spans lie in the same file, `binop_exprs` does not
panic and the `Typ` component of its result is `combine_types lt rt`;
conversely, on operands from different files that are both `Num`,
`binop_exprs` panics. -/
theorem binop_exprs_panic_freedom :
    (∀ (ls rs : Span) (lt rt : Typ) (li ri : TypInfo),
      ls.file_id = rs.file_id →
      result_typ (binop_exprs (ls, lt, li) (rs, rt, ri)) =
        some (combine_types lt rt)) ∧
    binop_exprs (Span.new 0 0 1, Typ.Num, TypInfo.RawLatex (Span.new 0 0 1))
        (Span.new 1 0 1, Typ.Num, TypInfo.RawLatex (Span.new 1 0 1)) =
      PanicOr.panicked := by
  refine ⟨fun ls rs lt rt li ri h => ?_, rfl⟩
  cases lt <;> cases rt <;>
    simp [binop_exprs, combine_types, Typ.is_list_weak, Span.with_end_of, h,
      result_typ]

/-- Witness for `binop_exprs_panic_freedom` on same-file `Num`/`List`
operands. -/
theorem binop_exprs_panic_freedom_witness :
    (Span.new 0 0 1).file_id = (Span.new 0 2 3).file_id ∧
    result_typ
        (binop_exprs (Span.new 0 0 1, Typ.Num, TypInfo.RawLatex (Span.new 0 0 1))
          (Span.new 0 2 3, Typ.List, TypInfo.RawLatex (Span.new 0 2 3))) =
      some (combine_types Typ.Num Typ.List) :=
  ⟨rfl,
    binop_exprs_panic_freedom.1 (Span.new 0 0 1) (Span.new 0 2 3)
      Typ.Num Typ.List (TypInfo.RawLatex (Span.new 0 0 1))
      (TypInfo.RawLatex (Span.new 0 2 3)) rfl⟩

/-- C5 counterexample: two `Num` operands whose spans lie in different files
make `binop_exprs` panic (the `expect` on `Span::with_end_of`) instead of
returning `Num` with a merged span and `BinOp` provenance, refuting the
claim quantified over every pair of operand triples. -/
theorem binop_exprs_cross_file_counterexample :
    binop_exprs (Span.new 2 0 1, Typ.Num, TypInfo.Literal Literal.Numeric (Span.new 2 0 1))
        (Span.new 3 4 5, Typ.Num, TypInfo.Literal Literal.Numeric (Span.new 3 4 5)) =
      PanicOr.panicked := rfl

/-- C5 (amended): if the left type is list-weak the result is `List` with
the left span and provenance; else if the right type is list-weak the
result is `List` with the right span and provenance; otherwise — both
`Num` — provided the spans share a file id, the result is `Num` with the
span merged from the start of the left to the end of the right and
provenance `BinOp(left span, right span)`. -/
theorem binop_exprs_cases (ls rs : Span) (lt rt : Typ) (li ri : TypInfo) :
    (lt.is_list_weak = true →
      binop_exprs (ls, lt, li) (rs, rt, ri) = PanicOr.ok (ls, Typ.List, li)) ∧
    (lt.is_list_weak = false → rt.is_list_weak = true →
      binop_exprs (ls, lt, li) (rs, rt, ri) = PanicOr.ok (rs, Typ.List, ri)) ∧
    (lt.is_list_weak = false → rt.is_list_weak = false →
      ls.file_id = rs.file_id →
      binop_exprs (ls, lt, li) (rs, rt, ri) =
        PanicOr.ok (Span.new ls.file_id ls.range_start rs.range_end, Typ.Num,
          TypInfo.BinOp ls rs)) := by
  refine ⟨fun h1 => ?_, fun h1 h2 => ?_, fun h1 h2 h3 => ?_⟩
  · simp [binop_exprs, h1]
  · simp [binop_exprs, h1, h2]
  · cases lt <;> simp_all [binop_exprs, Typ.is_list_weak, Span.with_end_of]

/-- Witness for `binop_exprs_cases`: a `MappedList` left operand yields
`List` with the left span and provenance. -/
theorem binop_exprs_cases_witness :
    Typ.is_list_weak Typ.MappedList = true ∧
    binop_exprs (Span.new 0 0 1, Typ.MappedList, TypInfo.Map (Span.new 0 0 1))
        (Span.new 0 2 3, Typ.Num, TypInfo.RawLatex (Span.new 0 2 3)) =
      PanicOr.ok (Span.new 0 0 1, Typ.List, TypInfo.Map (Span.new 0 0 1)) :=
  ⟨by decide,
    (binop_exprs_cases (Span.new 0 0 1) (Span.new 0 2 3) Typ.MappedList Typ.Num
      (TypInfo.Map (Span.new 0 0 1)) (TypInfo.RawLatex (Span.new 0 2 3))).1
      (by decide)⟩

/-- Left-to-right fold of `combine_types` over the `Typ` components of a
triple sequence, started from `t0`: the spec's "weak-combination fold". -/
def combine_fold (t0 : Typ) (xs : List (Span × Typ × TypInfo)) : Typ :=
  xs.foldl (fun t y => combine_types t y.2.1) t0

theorem combine_fold_cons (t0 : Typ) (y : Span × Typ × TypInfo)
    (xs : List (Span × Typ × TypInfo)) :
    combine_fold t0 (y :: xs) = combine_fold (combine_types t0 y.2.1) xs := rfl

theorem combine_types_weak (a b : Typ) :
    (combine_types a b).is_list_weak = (a.is_list_weak || b.is_list_weak) := by
  cases a <;> cases b <;> rfl

theorem combine_types_num_or_list (a b : Typ) :
    combine_types a b = Typ.List ∨ combine_types a b = Typ.Num := by
  cases a <;> cases b <;> simp [combine_types, Typ.is_list_weak]

theorem combine_fold_weak (xs : List (Span × Typ × TypInfo)) : ∀ t0 : Typ,
    (combine_fold t0 xs).is_list_weak =
      (t0.is_list_weak || xs.any fun y => y.2.1.is_list_weak) := by
  induction xs with
  | nil => intro t0; simp [combine_fold]
  | cons y ys ih =>
    intro t0
    rw [combine_fold_cons, ih, combine_types_weak]
    simp [Bool.or_assoc]

theorem combine_fold_num_or_list (xs : List (Span × Typ × TypInfo)) :
    ∀ t0 : Typ, xs ≠ [] →
      combine_fold t0 xs = Typ.List ∨ combine_fold t0 xs = Typ.Num := by
  induction xs with
  | nil => intro t0 h; exact absurd rfl h
  | cons y ys ih =>
    intro t0 _
    rw [combine_fold_cons]
    cases ys with
    | nil => exact combine_types_num_or_list t0 y.2.1
    | cons z zs => exact ih (combine_types t0 y.2.1) (by simp)

theorem reduce_go_ok (xs : List (Span × Typ × TypInfo)) :
    ∀ x : Span × Typ × TypInfo, (∀ y ∈ xs, y.1.file_id = x.1.file_id) →
    ∃ s i, reduce_go x xs = PanicOr.ok (s, combine_fold x.2.1 xs, i) ∧
      s.file_id = x.1.file_id := by
  induction xs with
  | nil =>
    rintro ⟨s0, t0, i0⟩ _
    exact ⟨s0, i0, rfl, rfl⟩
  | cons r rest ih =>
    rintro ⟨s0, t0, i0⟩ h
    obtain ⟨rs, rt, ri2⟩ := r
    have hr : rs.file_id = s0.file_id := h (rs, rt, ri2) (List.mem_cons_self _ _)
    have hrest : ∀ y ∈ rest, y.1.file_id = s0.file_id :=
      fun y hy => h y (List.mem_cons_of_mem _ hy)
    cases hl : t0.is_list_weak with
    | true =>
      have hb : binop_exprs (s0, t0, i0) (rs, rt, ri2) =
          PanicOr.ok (s0, Typ.List, i0) := by
        simp [binop_exprs, hl]
      have hcomb : combine_types t0 rt = Typ.List := by
        simp [combine_types, hl]
      obtain ⟨s, i, heq, hfid⟩ := ih (s0, Typ.List, i0) hrest
      refine ⟨s, i, ?_, hfid⟩
      rw [reduce_go, hb, combine_fold_cons, hcomb]
      exact heq
    | false =>
      cases hrl : rt.is_list_weak with
      | true =>
        have hb : binop_exprs (s0, t0, i0) (rs, rt, ri2) =
            PanicOr.ok (rs, Typ.List, ri2) := by
          simp [binop_exprs, hl, hrl]
        have hcomb : combine_types t0 rt = Typ.List := by
          simp [combine_types, hrl]
        obtain ⟨s, i, heq, hfid⟩ := ih (rs, Typ.List, ri2) (by
          intro y hy
          rw [hrest y hy, hr])
        refine ⟨s, i, ?_, ?_⟩
        · rw [reduce_go, hb, combine_fold_cons, hcomb]
          exact heq
        · rw [hfid]
          exact hr
      | false =>
        have ht0 : t0 = Typ.Num := by
          cases t0 <;> simp_all [Typ.is_list_weak]
        have hrt : rt = Typ.Num := by
          cases rt <;> simp_all [Typ.is_list_weak]
        subst ht0
        subst hrt
        have hb : binop_exprs (s0, Typ.Num, i0) (rs, Typ.Num, ri2) =
            PanicOr.ok (Span.new s0.file_id s0.range_start rs.range_end,
              Typ.Num, TypInfo.BinOp s0 rs) := by
          simp [binop_exprs, Typ.is_list_weak, Span.with_end_of, hr]
        obtain ⟨s, i, heq, hfid⟩ :=
          ih (Span.new s0.file_id s0.range_start rs.range_end, Typ.Num,
            TypInfo.BinOp s0 rs) hrest
        refine ⟨s, i, ?_, hfid⟩
        rw [reduce_go, hb, combine_fold_cons]
        exact heq

/-- C6 counterexample: the singleton sequence holding one `MappedList`
triple is list-weak, yet `reduce_with_binop_exprs` returns it unchanged
with type `MappedList`, not `List`, refuting the claimed iff over every
nonempty sequence. -/
theorem reduce_singleton_mapped_counterexample :
    reduce_with_binop_exprs
        [(Span.new 0 0 1, Typ.MappedList, TypInfo.Map (Span.new 0 0 1))] =
      PanicOr.ok
        (some (Span.new 0 0 1, Typ.MappedList, TypInfo.Map (Span.new 0 0 1))) ∧
    Typ.is_list_weak Typ.MappedList = true ∧
    Typ.MappedList ≠ Typ.List :=
  ⟨rfl, rfl, by decide⟩

/-- C6 (amended): a singleton sequence is returned unchanged (so a lone
`MappedList` keeps type `MappedList`); for every sequence of at least two
triples whose spans all share one file id, `reduce_with_binop_exprs`
returns `Some` of a triple whose type is the left-to-right `combine_types`
fold across all elements, and that type is `List` iff at least one element
is list-weak and `Num` iff none is. -/
theorem reduce_with_binop_exprs_spec :
    (∀ z : Span × Typ × TypInfo,
      reduce_with_binop_exprs [z] = PanicOr.ok (some z)) ∧
    (∀ (x y : Span × Typ × TypInfo) (xs : List (Span × Typ × TypInfo)),
      (∀ w ∈ x :: y :: xs, w.1.file_id = x.1.file_id) →
      ∃ s i, reduce_with_binop_exprs (x :: y :: xs) =
          PanicOr.ok (some (s, combine_fold x.2.1 (y :: xs), i)) ∧
        (combine_fold x.2.1 (y :: xs) = Typ.List ↔
          ∃ w ∈ x :: y :: xs, w.2.1.is_list_weak = true) ∧
        (combine_fold x.2.1 (y :: xs) = Typ.Num ↔
          ∀ w ∈ x :: y :: xs, w.2.1.is_list_weak = false)) := by
  constructor
  · intro z
    rfl
  · intro x y xs h
    obtain ⟨s, i, heq, hfid⟩ := reduce_go_ok (y :: xs) x
      (fun w hw => h w (List.mem_cons_of_mem _ hw))
    have hweak : (combine_fold x.2.1 (y :: xs)).is_list_weak = true ↔
        ∃ w ∈ x :: y :: xs, w.2.1.is_list_weak = true := by
      rw [combine_fold_weak]
      simp only [Bool.or_eq_true, List.any_eq_true, List.mem_cons]
      constructor
      · rintro (hx | ⟨w, hw, hpw⟩)
        · exact ⟨x, Or.inl rfl, hx⟩
        · exact ⟨w, Or.inr hw, hpw⟩
      · rintro ⟨w, hw | hw, hpw⟩
        · rw [hw] at hpw
          exact Or.inl hpw
        · exact Or.inr ⟨w, hw, hpw⟩
    have hnotweak : (combine_fold x.2.1 (y :: xs)).is_list_weak = false ↔
        ∀ w ∈ x :: y :: xs, w.2.1.is_list_weak = false := by
      rw [combine_fold_weak]
      simp only [Bool.or_eq_false_iff, List.any_eq_false, List.mem_cons,
        Bool.not_eq_true]
      constructor
      · rintro ⟨hx, hall⟩ w (hw | hw)
        · rw [hw]
          exact hx
        · exact hall w hw
      · intro hall
        exact ⟨hall x (Or.inl rfl), fun w hw => hall w (Or.inr hw)⟩
    have hnl := combine_fold_num_or_list (y :: xs) x.2.1 (by simp)
    refine ⟨s, i, ?_, ?_, ?_⟩
    · simp only [reduce_with_binop_exprs, heq]
    · constructor
      · intro hL
        exact hweak.mp (by rw [hL]; rfl)
      · intro hex
        rcases hnl with hL | hN
        · exact hL
        · exact absurd (hweak.mpr hex) (by rw [hN]; decide)
    · constructor
      · intro hN
        exact hnotweak.mp (by rw [hN]; rfl)
      · intro hall
        rcases hnl with hL | hN
        · exact absurd (hnotweak.mpr hall) (by rw [hL]; decide)
        · exact hN

/-- A same-file `Num` branch triple for concrete instances. -/
def pw_branch1 : Span × Typ × TypInfo :=
  (Span.new 0 0 1, Typ.Num, TypInfo.Literal Literal.Numeric (Span.new 0 0 1))

/-- A same-file `Num` branch triple for concrete instances. -/
def pw_branch2 : Span × Typ × TypInfo :=
  (Span.new 0 2 3, Typ.Num, TypInfo.Literal Literal.Numeric (Span.new 0 2 3))

/-- A same-file `List` branch triple for concrete instances. -/
def pw_branch3 : Span × Typ × TypInfo :=
  (Span.new 0 4 5, Typ.List, TypInfo.Literal Literal.List (Span.new 0 4 5))

/-- A same-file `Num` default triple for concrete instances. -/
def pw_default : Span × Typ × TypInfo :=
  (Span.new 0 6 7, Typ.Num, TypInfo.Literal Literal.Numeric (Span.new 0 6 7))

/-- Witness for `reduce_with_binop_exprs_spec` on branch value types
`[Num, Num, List]` with default `Num`: the overall type is `List`. -/
theorem reduce_with_binop_exprs_spec_witness :
    (∀ w ∈ pw_branch1 :: pw_branch2 :: [pw_branch3, pw_default],
      w.1.file_id = pw_branch1.1.file_id) ∧
    (∃ s i,
      reduce_with_binop_exprs
          (pw_branch1 :: pw_branch2 :: [pw_branch3, pw_default]) =
        PanicOr.ok (some (s,
          combine_fold pw_branch1.2.1 (pw_branch2 :: [pw_branch3, pw_default]),
          i)) ∧
      (combine_fold pw_branch1.2.1 (pw_branch2 :: [pw_branch3, pw_default]) =
          Typ.List ↔
        ∃ w ∈ pw_branch1 :: pw_branch2 :: [pw_branch3, pw_default],
          w.2.1.is_list_weak = true) ∧
      (combine_fold pw_branch1.2.1 (pw_branch2 :: [pw_branch3, pw_default]) =
          Typ.Num ↔
        ∀ w ∈ pw_branch1 :: pw_branch2 :: [pw_branch3, pw_default],
          w.2.1.is_list_weak = false)) ∧
    combine_fold pw_branch1.2.1 (pw_branch2 :: [pw_branch3, pw_default]) =
      Typ.List :=
  ⟨by decide,
    reduce_with_binop_exprs_spec.2 pw_branch1 pw_branch2 [pw_branch3, pw_default]
      (by decide),
    by decide⟩

end Asciidesmos
